import Mathlib

/-!
Shallow embedding of `mutagen/_tags.py`: the `PaddingInfo` padding policy
value object and the abstract `Metadata` lifecycle contract.

Python integers are modelled by `Int`; Python floor division `//` is
`Int.fdiv`; raising `ValueError` is modelled by `Except` with a dedicated
error type distinguishing the two messages `"Invalid padding"` and
`"Invalid filesize"`.
-/

/-- Errors raised by `PaddingInfo.__init__`: Python raises
`ValueError("Invalid padding")` or `ValueError("Invalid filesize")`. -/
inductive TagError where
  | invalidPadding
  | invalidFilesize
deriving DecidableEq, Repr

/-- The padding-decision value object: `padding` is the amount of padding
left after saving (may be negative), `size` is the file size after saving
minus padding, or `-1` when unknown. -/
structure PaddingInfo where
  padding : Int
  size : Int
deriving DecidableEq, Repr

namespace PaddingInfo

/-- Embedding of `PaddingInfo.__init__(self, padding, filesize)`:
sets `self.padding = padding`; if `filesize >= 0` sets
`self.size = filesize - padding`, raising `ValueError("Invalid padding")`
when that is negative; else if `filesize == -1` sets `self.size = -1`;
otherwise raises `ValueError("Invalid filesize")`. -/
def init (padding filesize : Int) : Except TagError PaddingInfo :=
  if filesize ≥ 0 then
    let size := filesize - padding
    if size < 0 then
      Except.error TagError.invalidPadding
    else
      Except.ok { padding := padding, size := size }
  else if filesize = -1 then
    Except.ok { padding := padding, size := -1 }
  else
    Except.error TagError.invalidFilesize

/-- Embedding of `PaddingInfo.get_default_padding(self)`: the default
heuristic; `//` in the source is Python floor division, hence `Int.fdiv`. -/
def get_default_padding (self : PaddingInfo) : Int :=
  let high : Int := 1024 * 5
  let low : Int := 1024
  let high := if self.size ≠ -1 then high + Int.fdiv self.size 40 else high
  let low := if self.size ≠ -1 then low + Int.fdiv self.size 200 else low
  if self.padding ≥ 0 then
    if self.padding > high then
      low
    else
      self.padding
  else
    low

/-- Embedding of `PaddingInfo._get_padding(self, user_func)`: no callback
means the default heuristic, otherwise the callback is applied to `self`
and its result returned verbatim. -/
def get_padding (self : PaddingInfo) (user_func : Option (PaddingInfo → Int)) :
    Int :=
  match user_func with
  | none => self.get_default_padding
  | some f => f self

/-- The `high` threshold computed inside `get_default_padding`. -/
def high_of (size : Int) : Int :=
  if size ≠ -1 then 1024 * 5 + Int.fdiv size 40 else 1024 * 5

/-- The `low` threshold computed inside `get_default_padding`. -/
def low_of (size : Int) : Int :=
  if size ≠ -1 then 1024 + Int.fdiv size 200 else 1024

/-- Restatement of the heuristic in terms of the two thresholds. -/
lemma get_default_padding_eq (self : PaddingInfo) :
    self.get_default_padding =
      if 0 ≤ self.padding then
        (if high_of self.size < self.padding then low_of self.size
         else self.padding)
      else low_of self.size := by
  simp only [get_default_padding, high_of, low_of, ge_iff_le, gt_iff_lt]

/-- Any successfully constructed value has `size = -1` or `size ≥ 0`,
and its `padding` field holds the argument unchanged. -/
lemma init_ok_fields (p f : Int) (info : PaddingInfo)
    (h : init p f = Except.ok info) :
    info.padding = p ∧ (info.size = -1 ∨ 0 ≤ info.size) := by
  simp only [init] at h
  split at h
  · split at h
    · simp at h
    · cases h
      refine ⟨rfl, Or.inr ?_⟩
      show 0 ≤ f - p
      omega
  · split at h
    · cases h
      exact ⟨rfl, Or.inl rfl⟩
    · simp at h

end PaddingInfo

/-- Error raised by the abstract `Metadata` lifecycle operations:
Python `raise NotImplementedError`. -/
inductive MetaError where
  | notImplemented
deriving DecidableEq, Repr

/-- The abstract `Metadata` base object: it holds no tag data of its own. -/
structure Metadata where
deriving DecidableEq, Repr

/-- Embedding of the abstract `Metadata.load(self, *args, **kwargs)`:
raises `NotImplementedError` unconditionally. -/
def Metadata.load {α : Type} (self : Metadata) (args : α) :
    Except MetaError Metadata :=
  Except.error MetaError.notImplemented

/-- Embedding of the abstract `Metadata.save(self, filename=None)`:
raises `NotImplementedError` unconditionally. -/
def Metadata.save (self : Metadata) (filename : Option String) :
    Except MetaError Metadata :=
  Except.error MetaError.notImplemented

/-- Embedding of the abstract `Metadata.delete(self, filename=None)`:
raises `NotImplementedError` unconditionally. -/
def Metadata.delete (self : Metadata) (filename : Option String) :
    Except MetaError Metadata :=
  Except.error MetaError.notImplemented

/-- Embedding of `Metadata.__init__(self, *args, **kwargs)`: with no
arguments it does nothing; with arguments it calls `self.load` on exactly
those arguments. `load_fn` stands for the (possibly overridden) `load`
method dispatched dynamically; the bare contract's is `Metadata.load`. -/
def Metadata.construct {α : Type}
    (load_fn : Metadata → List α → Except MetaError Metadata)
    (args : List α) : Except MetaError Metadata :=
  if args.isEmpty then Except.ok {} else load_fn {} args

/-- C1: for every integer padding and every filesize ≥ 0, construction
succeeds iff filesize - padding ≥ 0; on success the stored size equals
filesize - padding; when filesize - padding < 0 construction fails with
the invalid-padding error and no value is produced. -/
theorem C1_construction_validity (padding filesize : Int)
    (hf : 0 ≤ filesize) :
    ((∃ info, PaddingInfo.init padding filesize = Except.ok info) ↔
      0 ≤ filesize - padding) ∧
    (∀ info, PaddingInfo.init padding filesize = Except.ok info →
      info.size = filesize - padding) ∧
    (filesize - padding < 0 →
      PaddingInfo.init padding filesize =
        Except.error TagError.invalidPadding) := by
  by_cases hs : filesize - padding < 0 <;>
    simp [PaddingInfo.init, hs, hf] <;> omega

/-- Witness for C1 at padding 2, filesize 7. -/
theorem C1_witness :
    ((∃ info, PaddingInfo.init 2 7 = Except.ok info) ↔ 0 ≤ (7 : Int) - 2) ∧
    (∀ info, PaddingInfo.init 2 7 = Except.ok info →
      info.size = (7 : Int) - 2) ∧
    ((7 : Int) - 2 < 0 →
      PaddingInfo.init 2 7 = Except.error TagError.invalidPadding) :=
  C1_construction_validity 2 7 (by decide)

/-- C3: resolving with no override returns exactly the default heuristic,
and resolving with an override f returns exactly f applied to the
decision, with no validation or clamping. -/
theorem C3_resolve_override (info : PaddingInfo) :
    info.get_padding none = info.get_default_padding ∧
    ∀ f : PaddingInfo → Int, info.get_padding (some f) = f info :=
  ⟨rfl, fun _ => rfl⟩

/-- C4 as stated is false at its own input: the decision built from
padding 0 and filesize -1 has default padding 0, not 1024. -/
theorem C4_counterexample :
    PaddingInfo.init 0 (-1) = Except.ok { padding := 0, size := -1 } ∧
    PaddingInfo.get_default_padding { padding := 0, size := -1 } ≠ 1024 :=
  ⟨rfl, by decide⟩

/-- C4 amended: the decision built from padding 0 and filesize -1 keeps
its padding unchanged, so its default padding equals 0. -/
theorem C4_default_padding_zero :
    PaddingInfo.init 0 (-1) = Except.ok { padding := 0, size := -1 } ∧
    PaddingInfo.get_default_padding { padding := 0, size := -1 } = 0 :=
  ⟨rfl, rfl⟩

/-- C6: for every integer padding, construction with filesize -1 succeeds
and the stored size is the sentinel -1. -/
theorem C6_unknown_size_passthrough (padding : Int) :
    PaddingInfo.init padding (-1) =
      Except.ok { padding := padding, size := -1 } := rfl

/-- C7: construction fails with the invalid-filesize error exactly when
filesize < -1. -/
theorem C7_invalid_filesize (padding filesize : Int) :
    (filesize < -1 →
      PaddingInfo.init padding filesize =
        Except.error TagError.invalidFilesize) ∧
    (PaddingInfo.init padding filesize =
        Except.error TagError.invalidFilesize → filesize < -1) := by
  constructor
  · intro h
    unfold PaddingInfo.init
    rw [if_neg (by omega), if_neg (by omega)]
  · intro h
    simp only [PaddingInfo.init] at h
    split at h
    · split at h <;> simp_all
    · split at h
      · simp_all
      · omega

/-- Witness for C7 at padding 0, filesize -2. -/
theorem C7_witness :
    PaddingInfo.init 0 (-2) = Except.error TagError.invalidFilesize :=
  (C7_invalid_filesize 0 (-2)).1 (by decide)

/-- Floor division by 200 agrees with Euclidean division, the divisor
being positive. -/
lemma fdiv_two_hundred (s : Int) : Int.fdiv s 200 = s / 200 :=
  Int.fdiv_eq_ediv s (by decide)

/-- Floor division by 40 agrees with Euclidean division, the divisor
being positive. -/
lemma fdiv_forty (s : Int) : Int.fdiv s 40 = s / 40 :=
  Int.fdiv_eq_ediv s (by decide)

/-- The low threshold is at least 1024 on any reachable size. -/
lemma low_of_ge_1024 (s : Int) (hs : s = -1 ∨ 0 ≤ s) :
    1024 ≤ PaddingInfo.low_of s := by
  rcases hs with h1 | h1
  · simp [PaddingInfo.low_of, h1]
  · unfold PaddingInfo.low_of
    rw [if_pos (show s ≠ -1 by omega), fdiv_two_hundred]
    omega

/-- C2: for every successfully constructed decision, the default padding
equals the stored padding when 0 ≤ padding ≤ high (with no floor
enforced there), and otherwise it is at least 1024. -/
theorem C2_default_padding_bounds (padding filesize : Int)
    (info : PaddingInfo)
    (h : PaddingInfo.init padding filesize = Except.ok info) :
    (0 ≤ info.padding ∧ info.padding ≤ PaddingInfo.high_of info.size →
      info.get_default_padding = info.padding) ∧
    (¬(0 ≤ info.padding ∧ info.padding ≤ PaddingInfo.high_of info.size) →
      1024 ≤ info.get_default_padding) := by
  obtain ⟨-, hsz⟩ := PaddingInfo.init_ok_fields padding filesize info h
  rw [PaddingInfo.get_default_padding_eq]
  have hlow : 1024 ≤ PaddingInfo.low_of info.size := low_of_ge_1024 _ hsz
  constructor
  · rintro ⟨hp, hph⟩
    rw [if_pos hp, if_neg (by omega)]
  · intro hn
    by_cases hp : 0 ≤ info.padding
    · rw [if_pos hp, if_pos (by omega)]
      exact hlow
    · rw [if_neg hp]
      exact hlow

/-- Witness for C2 at padding 2000, filesize 100000. -/
theorem C2_witness :
    (0 ≤ (PaddingInfo.mk 2000 98000).padding ∧
       (PaddingInfo.mk 2000 98000).padding ≤
         PaddingInfo.high_of (PaddingInfo.mk 2000 98000).size →
      (PaddingInfo.mk 2000 98000).get_default_padding =
        (PaddingInfo.mk 2000 98000).padding) ∧
    (¬(0 ≤ (PaddingInfo.mk 2000 98000).padding ∧
        (PaddingInfo.mk 2000 98000).padding ≤
          PaddingInfo.high_of (PaddingInfo.mk 2000 98000).size) →
      1024 ≤ (PaddingInfo.mk 2000 98000).get_default_padding) :=
  C2_default_padding_bounds 2000 100000 (PaddingInfo.mk 2000 98000) rfl

/-- C5: the low and high thresholds are monotone in the size, and for a
fixed negative padding the default padding is non-decreasing in the
size. -/
theorem C5_threshold_monotone (s1 s2 : Int) (h0 : 0 ≤ s1) (h12 : s1 ≤ s2) :
    PaddingInfo.low_of s1 ≤ PaddingInfo.low_of s2 ∧
    PaddingInfo.high_of s1 ≤ PaddingInfo.high_of s2 ∧
    ∀ p : Int, p < 0 →
      PaddingInfo.get_default_padding { padding := p, size := s1 } ≤
        PaddingInfo.get_default_padding { padding := p, size := s2 } := by
  have hl : PaddingInfo.low_of s1 ≤ PaddingInfo.low_of s2 := by
    unfold PaddingInfo.low_of
    rw [if_pos (show s1 ≠ -1 by omega), if_pos (show s2 ≠ -1 by omega),
      fdiv_two_hundred, fdiv_two_hundred]
    omega
  have hh : PaddingInfo.high_of s1 ≤ PaddingInfo.high_of s2 := by
    unfold PaddingInfo.high_of
    rw [if_pos (show s1 ≠ -1 by omega), if_pos (show s2 ≠ -1 by omega),
      fdiv_forty, fdiv_forty]
    omega
  refine ⟨hl, hh, ?_⟩
  intro p hp
  rw [PaddingInfo.get_default_padding_eq, PaddingInfo.get_default_padding_eq]
  rw [if_neg (show ¬ 0 ≤ p by omega), if_neg (show ¬ 0 ≤ p by omega)]
  exact hl

/-- Witness for C5 at sizes 100 and 300. -/
theorem C5_witness :
    PaddingInfo.low_of 100 ≤ PaddingInfo.low_of 300 ∧
    PaddingInfo.high_of 100 ≤ PaddingInfo.high_of 300 ∧
    ∀ p : Int, p < 0 →
      PaddingInfo.get_default_padding { padding := p, size := 100 } ≤
        PaddingInfo.get_default_padding { padding := p, size := 300 } :=
  C5_threshold_monotone 100 300 (by decide) (by decide)

/-- C8: on the bare contract, load, save and delete fail unconditionally
with the not-implemented error for every argument; being pure, they
produce no state at all besides that error. -/
theorem C8_abstract_lifecycle_failure :
    (∀ (α : Type) (self : Metadata) (args : α),
      self.load args = Except.error MetaError.notImplemented) ∧
    (∀ (self : Metadata) (filename : Option String),
      self.save filename = Except.error MetaError.notImplemented) ∧
    (∀ (self : Metadata) (filename : Option String),
      self.delete filename = Except.error MetaError.notImplemented) :=
  ⟨fun _ _ _ => rfl, fun _ _ => rfl, fun _ _ => rfl⟩

/-- C9: constructing with no arguments succeeds without invoking load;
constructing with arguments invokes load with exactly those arguments,
so on the bare contract it fails with the not-implemented error. -/
theorem C9_construct_and_load (α : Type)
    (load_fn : Metadata → List α → Except MetaError Metadata)
    (args : List α) :
    Metadata.construct load_fn ([] : List α) = Except.ok {} ∧
    (args ≠ [] → Metadata.construct load_fn args = load_fn {} args) ∧
    (args ≠ [] →
      Metadata.construct (fun s a => Metadata.load s a) args =
        Except.error MetaError.notImplemented) := by
  refine ⟨rfl, ?_, ?_⟩ <;> intro h <;>
    simp [Metadata.construct, Metadata.load, h]

/-- Witness for C9 on the one-element argument list [1]. -/
theorem C9_witness :
    Metadata.construct (fun s a => Metadata.load s a) [1] =
      Except.error MetaError.notImplemented :=
  (C9_construct_and_load Nat (fun s a => Metadata.load s a) [1]).2.2
    (by decide)

/-- C10: every successfully constructed decision has size -1 or a
non-negative size; a negative padding with non-negative filesize always
constructs successfully and never yields the invalid-padding error. -/
theorem C10_size_invariant (p f : Int) :
    (∀ info, PaddingInfo.init p f = Except.ok info →
      info.size = -1 ∨ 0 ≤ info.size) ∧
    (p < 0 → 0 ≤ f →
      PaddingInfo.init p f = Except.ok { padding := p, size := f - p } ∧
      PaddingInfo.init p f ≠ Except.error TagError.invalidPadding) := by
  constructor
  · intro info h
    exact (PaddingInfo.init_ok_fields p f info h).2
  · intro hp hf
    have hinit : PaddingInfo.init p f =
        Except.ok { padding := p, size := f - p } := by
      unfold PaddingInfo.init
      rw [if_pos (show f ≥ 0 from hf)]
      exact if_neg (by omega)
    exact ⟨hinit, by simp [hinit]⟩

/-- Witness for C10 at padding -3, filesize 10. -/
theorem C10_witness :
    (∀ info, PaddingInfo.init (-3) 10 = Except.ok info →
      info.size = -1 ∨ 0 ≤ info.size) ∧
    (PaddingInfo.init (-3) 10 =
        Except.ok { padding := -3, size := 10 - -3 } ∧
      PaddingInfo.init (-3) 10 ≠ Except.error TagError.invalidPadding) :=
  ⟨(C10_size_invariant (-3) 10).1,
    (C10_size_invariant (-3) 10).2 (by decide) (by decide)⟩
